import Mathlib

/-!
Shallow embedding of the backend-selection / failover gateway of the
`ai-automation` repository and of its deterministic simulator.

Source files embedded here:
* `mock-ai-service.ts` — class `MockAIService` (the simulator): configuration
  defaults, error injection, template classification and synthesis, analysis
  heuristic, search simulation, save simulation.
* `ai-integration.ts` — class `AIServiceIntegration` (the real-backend HTTP
  client): every method catches transport faults and normalizes them.
* `enhanced-ai-service.ts` — class `EnhancedAIService` (the gateway): the
  `useMock` mode flag, the `autoFallback` policy and the per-operation
  dispatch/fallback logic.

Effects are made explicit: `Math.random()` draws become a rational parameter
`rand` per call, `Date` values become string/number parameters, the file
system becomes an `FsEnv` oracle, a JavaScript `throw` becomes the `.error`
case of `Except`, and an HTTP call's outcome becomes an `HttpOutcome` value.
JavaScript numbers in this code are decimal literals and exact decimal
arithmetic, modelled as `ℚ`.
-/

namespace AIAutomation

/-- JavaScript `String.prototype.includes`: substring containment. -/
def containsStr (s pat : String) : Bool :=
  decide (pat.toList <:+: s.toList)

/-- JavaScript `a || b` on an optional string: `undefined` and the empty
string are falsy. -/
def jsOrStr (v : Option String) (d : String) : String :=
  match v with
  | none => d
  | some s => if s = "" then d else s

/-- JavaScript `a || b` on an optional number: `undefined` and `0` are falsy. -/
def jsOrNum (v : Option ℚ) (d : ℚ) : ℚ :=
  match v with
  | none => d
  | some x => if x = 0 then d else x

/-- JavaScript `a || b` on an optional boolean: `undefined` and `false` are
falsy. -/
def jsOrBool (v : Option Bool) (d : Bool) : Bool :=
  match v with
  | none => d
  | some b => b || d

/-- JavaScript `toLowerCase` (the code only relies on ASCII letters):
lower-case the string character by character. -/
def jsToLower (s : String) : String :=
  String.mk (s.toList.map Char.toLower)

/-- `requirements.toLowerCase().replace(/[^a-z0-9]/g, ' ').trim()` — the
test title embedded in every template. -/
def sanitizeTitle (requirements : String) : String :=
  (String.mk ((jsToLower requirements).toList.map
    (fun c => if c.isLower || c.isDigit then c else ' '))).trim

/-- `testName.replace(/[^a-z0-9]/gi, '-')` from `MockAIService.saveTest`. -/
def sanitizeFileName (testName : String) : String :=
  String.mk (testName.toList.map
    (fun c => if c.isLower || c.isUpper || c.isDigit then c else '-'))

/-! ## Data model (interfaces of `ai-integration.ts` / response shapes) -/

/-- `TestGenerationRequest` of `ai-integration.ts`. -/
structure TestGenerationRequest where
  requirements : String
  context : Option String := none
  pageUrl : Option String := none
  existingTests : Option String := none
  deriving Repr, DecidableEq

/-- The `validation` field of a generation response. -/
structure ValidationInfo where
  valid : Bool
  issues : List String
  warnings : List String
  deriving Repr, DecidableEq

/-- One entry of `context_used` (its `metadata.file_path` flattened). -/
structure ContextEntry where
  file_path : String
  content : String
  deriving Repr, DecidableEq

/-- `TestGenerationResponse` of `ai-integration.ts`. -/
structure TestGenerationResponse where
  success : Bool
  code : Option String := none
  error : Option String := none
  validation : Option ValidationInfo := none
  context_used : Option (List ContextEntry) := none
  deriving Repr, DecidableEq

/-- `TestAnalysisRequest` of `ai-integration.ts`. -/
structure TestAnalysisRequest where
  testCode : String
  testName : Option String := none
  deriving Repr, DecidableEq

/-- The `analysis` record produced by `MockAIService.analyzeTestCode`
(`quality` and `coverage` are the literal strings of the source). -/
structure TestAnalysis where
  quality : String
  coverage : String
  suggestions : List String
  improvements : List String
  deriving Repr, DecidableEq

/-- `TestAnalysisResponse` of `ai-integration.ts`. -/
structure TestAnalysisResponse where
  success : Bool
  analysis : Option TestAnalysis := none
  error : Option String := none
  deriving Repr, DecidableEq

/-- `metadata` of a mock search result. -/
structure SearchResultMetadata where
  file_path : String
  test_name : String
  created_at : String
  deriving Repr, DecidableEq

/-- One search result entry (`score` is `relevanceScore`). -/
structure SearchResult where
  metadata : SearchResultMetadata
  content : String
  score : ℚ
  deriving Repr, DecidableEq

/-- The save-operation result shape: the real client returns
`{success, filePath, error}`, the mock returns
`{success, file_path, message}` or `{success, error}`; the union of the
duck-typed fields is kept. -/
structure SaveResponse where
  success : Bool
  filePath : Option String := none
  file_path : Option String := none
  error : Option String := none
  message : Option String := none
  deriving Repr, DecidableEq

/-! ## MockAIService (`mock-ai-service.ts`) -/

/-- `MockAIServiceConfig`: every field optional. -/
structure MockAIServiceConfig where
  responseDelay : Option ℚ := none
  enableRandomErrors : Option Bool := none
  errorRate : Option ℚ := none
  deriving Repr, DecidableEq

/-- The private state of a `MockAIService` instance. -/
structure MockAIService where
  responseDelay : ℚ
  enableRandomErrors : Bool
  errorRate : ℚ
  deriving Repr, DecidableEq

/-- The `MockAIService` constructor: defaults applied with JavaScript `||`
(`config.responseDelay || 500`, `config.enableRandomErrors || false`,
`config.errorRate || 0.1`). -/
def MockAIService.construct (config : MockAIServiceConfig) : MockAIService :=
  { responseDelay := jsOrNum config.responseDelay 500
    enableRandomErrors := jsOrBool config.enableRandomErrors false
    errorRate := jsOrNum config.errorRate 0.1 }

/-- `shouldSimulateError`: `Math.random() < this.errorRate` when random
errors are enabled; the draw is the explicit parameter `rand`. -/
def MockAIService.shouldSimulateError (svc : MockAIService) (rand : ℚ) : Bool :=
  if !svc.enableRandomErrors then false
  else decide (rand < svc.errorRate)

/-- The keys of the `testTemplates` object in `generatePlaywrightTest`. -/
inductive TemplateKey where
  | login
  | navigation
  | form
  | shopping
  | dflt
  deriving Repr, DecidableEq

/-- The template-selection if/else chain of `generatePlaywrightTest`
(`reqLower = requirements.toLowerCase()`), in source order. -/
def chooseTemplate (requirements : String) : TemplateKey :=
  let reqLower := jsToLower requirements
  if containsStr reqLower "login" || containsStr reqLower "auth" then .login
  else if containsStr reqLower "nav" || containsStr reqLower "menu" then .navigation
  else if containsStr reqLower "form" || containsStr reqLower "submit" then .form
  else if containsStr reqLower "shop" || containsStr reqLower "cart"
       || containsStr reqLower "store" then .shopping
  else .dflt

/-- The `testTemplates` object: each template literal with its interpolated
test title (and, for `default`, the context fallback). Braces of the
JavaScript text are written as `\x7b` / `\x7d` escapes. -/
def testTemplates (key : TemplateKey) (requirements : String)
    (context : Option String) : String :=
  let title := sanitizeTitle requirements
  let ctx := jsOrStr context "No additional context provided"
  match key with
  | .login =>
    "\nimport \x7b test, expect \x7d from '@playwright/test';\n\ntest('" ++
    title ++
    "', async (\x7b page \x7d) => \x7b\n  // Navigate to the login page\n  await page.goto('https://example.com/login');\n  \n  // Fill in login credentials\n  await page.fill('[data-testid=\"email\"]', 'test@example.com');\n  await page.fill('[data-testid=\"password\"]', 'password123');\n  \n  // Submit the form\n  await page.click('[data-testid=\"login-button\"]');\n  \n  // Verify successful login\n  await expect(page).toHaveURL(/.*dashboard/);\n  await expect(page.locator('[data-testid=\"user-menu\"]')).toBeVisible();\n  \n  // Additional verification\n  await expect(page.locator('text=Welcome')).toBeVisible();\n\x7d);"
  | .navigation =>
    "\nimport \x7b test, expect \x7d from '@playwright/test';\n\ntest('" ++
    title ++
    "', async (\x7b page \x7d) => \x7b\n  // Navigate to the main page\n  await page.goto('https://example.com');\n  \n  // Verify page loads correctly\n  await expect(page).toHaveTitle(/Example/);\n  await expect(page.locator('nav')).toBeVisible();\n  \n  // Test navigation links\n  const navLinks = page.locator('nav a');\n  await expect(navLinks).toHaveCount(5);\n  \n  // Click on a navigation link\n  await page.click('nav a[href=\"/about\"]');\n  await expect(page).toHaveURL(/.*about/);\n  \n  // Verify page content\n  await expect(page.locator('h1')).toContainText('About');\n\x7d);"
  | .form =>
    "\nimport \x7b test, expect \x7d from '@playwright/test';\n\ntest('" ++
    title ++
    "', async (\x7b page \x7d) => \x7b\n  // Navigate to the form page\n  await page.goto('https://example.com/contact');\n  \n  // Fill out the form\n  await page.fill('[name=\"name\"]', 'John Doe');\n  await page.fill('[name=\"email\"]', 'john@example.com');\n  await page.fill('[name=\"message\"]', 'This is a test message');\n  \n  // Submit the form\n  await page.click('button[type=\"submit\"]');\n  \n  // Verify success message\n  await expect(page.locator('.success-message')).toBeVisible();\n  await expect(page.locator('.success-message')).toContainText('Thank you');\n\x7d);"
  | .shopping =>
    "\nimport \x7b test, expect \x7d from '@playwright/test';\n\ntest('" ++
    title ++
    "', async (\x7b page \x7d) => \x7b\n  // Navigate to the store\n  await page.goto('https://example.com/store');\n  \n  // Browse products\n  await expect(page.locator('.product-card')).toHaveCount(10);\n  \n  // Add item to cart\n  await page.click('.product-card:first-child .add-to-cart');\n  await expect(page.locator('.cart-count')).toHaveText('1');\n  \n  // Go to cart\n  await page.click('.cart-icon');\n  await expect(page).toHaveURL(/.*cart/);\n  \n  // Verify cart contents\n  await expect(page.locator('.cart-item')).toHaveCount(1);\n  await expect(page.locator('.cart-total')).toBeVisible();\n\x7d);"
  | .dflt =>
    "\nimport \x7b test, expect \x7d from '@playwright/test';\n\ntest('" ++
    title ++
    "', async (\x7b page \x7d) => \x7b\n  // Navigate to the page\n  await page.goto('https://example.com');\n  \n  // Verify page loads\n  await expect(page).toHaveTitle(/Example/);\n  await expect(page.locator('body')).toBeVisible();\n  \n  // Test basic functionality\n  await expect(page.locator('main')).toBeVisible();\n  \n  // Additional context: " ++
    ctx ++
    "\n  \n  // Verify page is responsive\n  await page.setViewportSize(\x7b width: 1280, height: 720 \x7d);\n  await expect(page.locator('nav')).toBeVisible();\n  \n  // Test mobile view\n  await page.setViewportSize(\x7b width: 375, height: 667 \x7d);\n  await expect(page.locator('.mobile-menu')).toBeVisible();\n\x7d);"

/-- `generatePlaywrightTest`: pick the template determined by the
requirements text. -/
def MockAIService.generatePlaywrightTest (requirements : String)
    (context : Option String) : String :=
  testTemplates (chooseTemplate requirements) requirements context

/-- `analyzeTestCode`: structure checks append suggestions/improvements,
then the score maps to quality/coverage. -/
def MockAIService.analyzeTestCode (testCode : String) : TestAnalysis :=
  let suggestions :=
    (if !containsStr testCode "import \x7b test, expect \x7d" then
      ["Add proper Playwright imports"] else []) ++
    (if !containsStr testCode "page.goto" then
      ["Consider adding page navigation"] else []) ++
    (if !containsStr testCode "expect(" then
      ["Add assertions to verify expected behavior"] else [])
  let improvements :=
    (if containsStr testCode "await page.click" && !containsStr testCode "expect" then
      ["Add assertions after click actions"] else []) ++
    (if containsStr testCode "page.fill" && !containsStr testCode "expect" then
      ["Verify form submissions with assertions"] else [])
  let score : ℤ := 100 - suggestions.length * 10 - improvements.length * 5
  if score ≥ 80 then
    { quality := "Excellent", coverage := "High", suggestions, improvements }
  else if score ≥ 60 then
    { quality := "Good", coverage := "Medium", suggestions, improvements }
  else
    { quality := "Needs Improvement", coverage := "Low", suggestions, improvements }

/-- Mock `checkHealth`: healthy exactly when no error is injected. -/
def MockAIService.checkHealth (svc : MockAIService) (rand : ℚ) : Bool :=
  !svc.shouldSimulateError rand

/-- Mock `generateTest`. -/
def MockAIService.generateTest (svc : MockAIService) (rand : ℚ)
    (request : TestGenerationRequest) : TestGenerationResponse :=
  if svc.shouldSimulateError rand then
    { success := false
      error := some "Mock AI service temporarily unavailable" }
  else
    { success := true
      code := some (MockAIService.generatePlaywrightTest
        request.requirements request.context)
      validation := some
        { valid := true
          issues := []
          warnings := ["Generated by mock AI service for development"] }
      context_used := some
        [{ file_path := "mock-context.ts"
           content := "Mock context for development" }] }

/-- Mock `analyzeTest`. -/
def MockAIService.analyzeTest (svc : MockAIService) (rand : ℚ)
    (request : TestAnalysisRequest) : TestAnalysisResponse :=
  if svc.shouldSimulateError rand then
    { success := false
      error := some "Mock analysis service temporarily unavailable" }
  else
    { success := true
      analysis := some (MockAIService.analyzeTestCode request.testCode) }

/-- Mock `modifyTest`: regenerates from the modification request. -/
def MockAIService.modifyTest (svc : MockAIService) (rand : ℚ)
    (_filePath modificationRequest : String) : TestGenerationResponse :=
  if svc.shouldSimulateError rand then
    { success := false
      error := some "Mock modification service temporarily unavailable" }
  else
    { success := true
      code := some ("// Modified test based on: " ++ modificationRequest ++ "\n"
        ++ MockAIService.generatePlaywrightTest modificationRequest none)
      validation := some
        { valid := true
          issues := []
          warnings := ["Modified by mock AI service"] } }

/-- One synthetic search entry of the mock's loop body at index `i`
(`now` is `new Date().toISOString()`). -/
def mockSearchEntry (now query : String) (i : ℕ) : SearchResult :=
  { metadata :=
      { file_path := "tests/mock-result-" ++ toString (i + 1) ++ ".spec.ts"
        test_name := "Mock Test " ++ toString (i + 1)
        created_at := now }
    content := "// Mock test content for: " ++ query ++
      "\n// This is a generated search result for development purposes"
    score := 0.9 - i * 0.1 }

/-- Mock `searchTests`: `Math.min(numResults, 5)` synthetic entries, or `[]`
when an error is injected. -/
def MockAIService.searchTests (svc : MockAIService) (rand : ℚ) (now : String)
    (query : String) (numResults : ℕ) : List SearchResult :=
  if svc.shouldSimulateError rand then []
  else (List.range (min numResults 5)).map (mockSearchEntry now query)

/-- The file-system oracle for the mock's `saveTest`: whether the
mkdir/write pair succeeds, and the thrown error's rendering otherwise. -/
structure FsEnv where
  writeOk : Bool
  errMsg : String
  deriving Repr, DecidableEq

/-- Mock `saveTest` (`nowMs` is `Date.now()`; `path.join` on a directory and
file name renders as `dir ++ "/" ++ file`). -/
def MockAIService.saveTest (svc : MockAIService) (rand : ℚ) (fs : FsEnv)
    (nowMs : ℕ) (_code testName outputDir : String) : SaveResponse :=
  if svc.shouldSimulateError rand then
    { success := false
      error := some "Mock save service temporarily unavailable" }
  else if fs.writeOk then
    { success := true
      file_path := some (outputDir ++ "/" ++ sanitizeFileName testName
        ++ "-" ++ toString nowMs ++ ".spec.ts")
      message := some "Test saved successfully by mock service" }
  else
    { success := false
      error := some ("Failed to save test: " ++ fs.errMsg) }

/-! ## AIServiceIntegration (`ai-integration.ts`), the real-backend client

Each method performs one axios call; its outcome is the explicit
`HttpOutcome` parameter: the parsed response body on success, or the raised
transport fault (an axios error carrying `error.response?.data?.detail` and
`error.message`, or any other thrown value rendered as a string). -/

/-- The outcome of one axios call returning a body of type `α`. -/
inductive HttpOutcome (α : Type) where
  | ok (data : α)
  | axiosErr (detail : Option String) (message : String)
  | otherErr (msg : String)
  deriving Repr, DecidableEq

/-- True when the call raised (any transport fault), false on a response. -/
def HttpOutcome.isFault : HttpOutcome α → Bool
  | .ok _ => false
  | .axiosErr _ _ => true
  | .otherErr _ => true

/-- `checkHealth`: `response.data.status === 'healthy'`, `false` on any
raised error. -/
def AIServiceIntegration.checkHealth (http : HttpOutcome String) : Bool :=
  match http with
  | .ok status => status == "healthy"
  | .axiosErr _ _ => false
  | .otherErr _ => false

/-- `generateTest`: returns `response.data`; a raised axios error becomes
`{success: false, error: detail || message}`, any other raised value
becomes `{success: false, error: "Unexpected error: ..."}`. -/
def AIServiceIntegration.generateTest
    (http : HttpOutcome TestGenerationResponse) : TestGenerationResponse :=
  match http with
  | .ok data => data
  | .axiosErr detail message =>
    { success := false, error := some (jsOrStr detail message) }
  | .otherErr msg =>
    { success := false, error := some ("Unexpected error: " ++ msg) }

/-- `analyzeTest`: same normalization as `generateTest`. -/
def AIServiceIntegration.analyzeTest
    (http : HttpOutcome TestAnalysisResponse) : TestAnalysisResponse :=
  match http with
  | .ok data => data
  | .axiosErr detail message =>
    { success := false, error := some (jsOrStr detail message) }
  | .otherErr msg =>
    { success := false, error := some ("Unexpected error: " ++ msg) }

/-- `modifyTest`: same normalization as `generateTest`. -/
def AIServiceIntegration.modifyTest
    (http : HttpOutcome TestGenerationResponse) : TestGenerationResponse :=
  match http with
  | .ok data => data
  | .axiosErr detail message =>
    { success := false, error := some (jsOrStr detail message) }
  | .otherErr msg =>
    { success := false, error := some ("Unexpected error: " ++ msg) }

/-- `searchTests`: `response.data.results || []`; `[]` on any raised error. -/
def AIServiceIntegration.searchTests
    (http : HttpOutcome (Option (List SearchResult))) : List SearchResult :=
  match http with
  | .ok results => results.getD []
  | .axiosErr _ _ => []
  | .otherErr _ => []

/-- The body of a `/save-test` response. -/
structure SaveHttpData where
  success : Bool
  file_path : Option String := none
  error : Option String := none
  deriving Repr, DecidableEq

/-- `saveTest`: repackages `response.data` field by field; raised errors are
normalized as in `generateTest`. -/
def AIServiceIntegration.saveTest (http : HttpOutcome SaveHttpData) : SaveResponse :=
  match http with
  | .ok d => { success := d.success, filePath := d.file_path, error := d.error }
  | .axiosErr detail message =>
    { success := false, error := some (jsOrStr detail message) }
  | .otherErr msg =>
    { success := false, error := some ("Unexpected error: " ++ msg) }

/-! ## EnhancedAIService (`enhanced-ai-service.ts`), the gateway

The mutable fields `useMock` and `autoFallback` (and the mock instance)
form the state; each operation returns its result paired with the state
after the call. The `try`/`catch` around `await this.realService.op(...)`
is modelled by an `Except String` parameter for the awaited call — `.error`
is a raised exception — and an `Except String` result — `.error` is the
gateway rethrowing it. -/

/-- `EnhancedAIServiceConfig` (the real-service sub-config carries no
behavior relevant here). -/
structure EnhancedAIServiceConfig where
  useMock : Option Bool := none
  mockConfig : Option MockAIServiceConfig := none
  autoFallback : Option Bool := none
  deriving Repr, DecidableEq

/-- The gateway's state. -/
structure EnhancedAIService where
  useMock : Bool
  autoFallback : Bool
  mockService : MockAIService
  deriving Repr, DecidableEq

/-- The `EnhancedAIService` constructor: `??` defaults (`useMock ?? false`,
`autoFallback ?? true`) and construction of the mock instance. -/
def EnhancedAIService.construct (config : EnhancedAIServiceConfig) :
    EnhancedAIService :=
  { useMock := config.useMock.getD false
    autoFallback := config.autoFallback.getD true
    mockService := MockAIService.construct (config.mockConfig.getD {}) }

/-- `enableMock`. -/
def EnhancedAIService.enableMock (svc : EnhancedAIService) : EnhancedAIService :=
  { svc with useMock := true }

/-- `enableReal`. -/
def EnhancedAIService.enableReal (svc : EnhancedAIService) : EnhancedAIService :=
  { svc with useMock := false }

/-- `getCurrentService`. -/
def EnhancedAIService.getCurrentService (svc : EnhancedAIService) : String :=
  if svc.useMock then "mock" else "real"

/-- Gateway `checkHealth` (no `try`/`catch` in the source: the client's
health probe returns a boolean, here the parameter `realHealthy`). -/
def EnhancedAIService.checkHealthOp (svc : EnhancedAIService)
    (realHealthy : Bool) (rand : ℚ) : Bool × EnhancedAIService :=
  if svc.useMock then (svc.mockService.checkHealth rand, svc)
  else if !realHealthy && svc.autoFallback then
    let svc' := { svc with useMock := true }
    (svc'.mockService.checkHealth rand, svc')
  else (realHealthy, svc)

/-- Gateway `generateTest`. -/
def EnhancedAIService.generateTestOp (svc : EnhancedAIService)
    (realCall : Except String TestGenerationResponse) (rand : ℚ)
    (request : TestGenerationRequest) :
    Except String (TestGenerationResponse × EnhancedAIService) :=
  if svc.useMock then .ok (svc.mockService.generateTest rand request, svc)
  else
    match realCall with
    | .ok result =>
      if !result.success && svc.autoFallback then
        let svc' := { svc with useMock := true }
        .ok (svc'.mockService.generateTest rand request, svc')
      else .ok (result, svc)
    | .error e =>
      if svc.autoFallback then
        let svc' := { svc with useMock := true }
        .ok (svc'.mockService.generateTest rand request, svc')
      else .error e

/-- The `mockRequest` built by the gateway's `analyzeTest`:
`{testCode, ...(request.testName && {testName: request.testName})}` — an
absent or empty (falsy) `testName` is dropped. -/
def gatewayMockAnalysisRequest (request : TestAnalysisRequest) :
    TestAnalysisRequest :=
  { testCode := request.testCode
    testName :=
      match request.testName with
      | none => none
      | some n => if n = "" then none else some n }

/-- Gateway `analyzeTest`. -/
def EnhancedAIService.analyzeTestOp (svc : EnhancedAIService)
    (realCall : Except String TestAnalysisResponse) (rand : ℚ)
    (request : TestAnalysisRequest) :
    Except String (TestAnalysisResponse × EnhancedAIService) :=
  let mockRequest := gatewayMockAnalysisRequest request
  if svc.useMock then .ok (svc.mockService.analyzeTest rand mockRequest, svc)
  else
    match realCall with
    | .ok result =>
      if !result.success && svc.autoFallback then
        let svc' := { svc with useMock := true }
        .ok (svc'.mockService.analyzeTest rand mockRequest, svc')
      else .ok (result, svc)
    | .error e =>
      if svc.autoFallback then
        let svc' := { svc with useMock := true }
        .ok (svc'.mockService.analyzeTest rand mockRequest, svc')
      else .error e

/-- Gateway `modifyTest`. -/
def EnhancedAIService.modifyTestOp (svc : EnhancedAIService)
    (realCall : Except String TestGenerationResponse) (rand : ℚ)
    (filePath modificationRequest : String) :
    Except String (TestGenerationResponse × EnhancedAIService) :=
  if svc.useMock then
    .ok (svc.mockService.modifyTest rand filePath modificationRequest, svc)
  else
    match realCall with
    | .ok result =>
      if !result.success && svc.autoFallback then
        let svc' := { svc with useMock := true }
        .ok (svc'.mockService.modifyTest rand filePath modificationRequest, svc')
      else .ok (result, svc)
    | .error e =>
      if svc.autoFallback then
        let svc' := { svc with useMock := true }
        .ok (svc'.mockService.modifyTest rand filePath modificationRequest, svc')
      else .error e

/-- Gateway `searchTests`: the fallback triggers on `results.length === 0`,
not on a declared failure. -/
def EnhancedAIService.searchTestsOp (svc : EnhancedAIService)
    (realCall : Except String (List SearchResult)) (rand : ℚ)
    (now query : String) (numResults : ℕ) :
    Except String (List SearchResult × EnhancedAIService) :=
  if svc.useMock then
    .ok (svc.mockService.searchTests rand now query numResults, svc)
  else
    match realCall with
    | .ok results =>
      if results.length = 0 && svc.autoFallback then
        let svc' := { svc with useMock := true }
        .ok (svc'.mockService.searchTests rand now query numResults, svc')
      else .ok (results, svc)
    | .error e =>
      if svc.autoFallback then
        let svc' := { svc with useMock := true }
        .ok (svc'.mockService.searchTests rand now query numResults, svc')
      else .error e

/-- Gateway `saveTest`. -/
def EnhancedAIService.saveTestOp (svc : EnhancedAIService)
    (realCall : Except String SaveResponse) (rand : ℚ) (fs : FsEnv)
    (nowMs : ℕ) (code testName outputDir : String) :
    Except String (SaveResponse × EnhancedAIService) :=
  if svc.useMock then
    .ok (svc.mockService.saveTest rand fs nowMs code testName outputDir, svc)
  else
    match realCall with
    | .ok result =>
      if !result.success && svc.autoFallback then
        let svc' := { svc with useMock := true }
        .ok (svc'.mockService.saveTest rand fs nowMs code testName outputDir, svc')
      else .ok (result, svc)
    | .error e =>
      if svc.autoFallback then
        let svc' := { svc with useMock := true }
        .ok (svc'.mockService.saveTest rand fs nowMs code testName outputDir, svc')
      else .error e

/-! ## The gateway as a transition system (for the no-silent-recovery
invariant): one constructor per public operation, carrying that call's
environment (real-backend outcome, random draw, clock, file system). -/

instance exceptDecEq {ε α : Type} [DecidableEq ε] [DecidableEq α] :
    DecidableEq (Except ε α)
  | .ok a, .ok b =>
    if h : a = b then .isTrue (by rw [h])
    else .isFalse (fun hc => h (Except.ok.inj hc))
  | .ok _, .error _ => .isFalse (fun hc => Except.noConfusion hc)
  | .error _, .ok _ => .isFalse (fun hc => Except.noConfusion hc)
  | .error e, .error f =>
    if h : e = f then .isTrue (by rw [h])
    else .isFalse (fun hc => h (Except.error.inj hc))

/-- One gateway operation together with its call environment. -/
inductive GatewayOp where
  | enableMock
  | enableReal
  | checkHealth (realHealthy : Bool) (rand : ℚ)
  | generateTest (realCall : Except String TestGenerationResponse) (rand : ℚ)
      (request : TestGenerationRequest)
  | analyzeTest (realCall : Except String TestAnalysisResponse) (rand : ℚ)
      (request : TestAnalysisRequest)
  | modifyTest (realCall : Except String TestGenerationResponse) (rand : ℚ)
      (filePath modificationRequest : String)
  | searchTests (realCall : Except String (List SearchResult)) (rand : ℚ)
      (now query : String) (numResults : ℕ)
  | saveTest (realCall : Except String SaveResponse) (rand : ℚ) (fs : FsEnv)
      (nowMs : ℕ) (code testName outputDir : String)
  | getServiceStatus (realHealthy mockHealthy : Bool)
  deriving Repr, DecidableEq

/-- The state after one gateway operation (`getServiceStatus` probes both
backends but never mutates the mode; a rethrown exception leaves the state
as the operation left it, i.e. unchanged). -/
def EnhancedAIService.step (svc : EnhancedAIService) (op : GatewayOp) :
    EnhancedAIService :=
  match op with
  | .enableMock => svc.enableMock
  | .enableReal => svc.enableReal
  | .checkHealth h r => (svc.checkHealthOp h r).2
  | .generateTest rc r req =>
    match svc.generateTestOp rc r req with
    | .ok (_, s') => s'
    | .error _ => svc
  | .analyzeTest rc r req =>
    match svc.analyzeTestOp rc r req with
    | .ok (_, s') => s'
    | .error _ => svc
  | .modifyTest rc r fp mr =>
    match svc.modifyTestOp rc r fp mr with
    | .ok (_, s') => s'
    | .error _ => svc
  | .searchTests rc r now q n =>
    match svc.searchTestsOp rc r now q n with
    | .ok (_, s') => s'
    | .error _ => svc
  | .saveTest rc r fs ms c tn od =>
    match svc.saveTestOp rc r fs ms c tn od with
    | .ok (_, s') => s'
    | .error _ => svc
  | .getServiceStatus _ _ => svc

/-! ## Helper lemmas -/

theorem toList_append (s t : String) : (s ++ t).toList = s.toList ++ t.toList := by
  simp [String.toList, String.data_append]

theorem append_ne_empty_left (s t : String) (h : s ≠ "") : s ++ t ≠ "" := by
  intro hc
  apply h
  have hl : (s ++ t).length = 0 := by rw [hc]; rfl
  rw [String.length_append] at hl
  have hs : s.length = 0 := Nat.eq_zero_of_add_eq_zero_right hl
  cases s with
  | mk data =>
    cases data with
    | nil => rfl
    | cons a l => simp [String.length] at hs

theorem containsStr_middle (a q b : String) : containsStr (a ++ q ++ b) q = true := by
  simp only [containsStr, decide_eq_true_eq, toList_append]
  exact List.infix_append _ _ _

theorem containsStr_of_sub (s big small : String)
    (hsub : small.toList <:+: big.toList) (h : containsStr s big = true) :
    containsStr s small = true := by
  simp only [containsStr, decide_eq_true_eq] at h ⊢
  exact hsub.trans h

theorem shouldSimulateError_off (svc : MockAIService)
    (h : svc.enableRandomErrors = false) (rand : ℚ) :
    svc.shouldSimulateError rand = false := by
  simp [MockAIService.shouldSimulateError, h]

theorem testTemplates_ne_empty (key : TemplateKey) (requirements : String)
    (context : Option String) : testTemplates key requirements context ≠ "" := by
  cases key <;>
    · simp only [testTemplates, String.append_assoc]
      exact append_ne_empty_left _ _ (by decide)

theorem step_preserves_mock (svc : EnhancedAIService) (op : GatewayOp)
    (hop : op ≠ GatewayOp.enableReal) (h : svc.useMock = true) :
    (svc.step op).useMock = true := by
  cases op with
  | enableReal => exact absurd rfl hop
  | enableMock => simp [EnhancedAIService.step, EnhancedAIService.enableMock]
  | checkHealth hh r =>
    simp [EnhancedAIService.step, EnhancedAIService.checkHealthOp, h]
  | generateTest rc r req =>
    simp [EnhancedAIService.step, EnhancedAIService.generateTestOp, h]
  | analyzeTest rc r req =>
    simp [EnhancedAIService.step, EnhancedAIService.analyzeTestOp, h]
  | modifyTest rc r fp mr =>
    simp [EnhancedAIService.step, EnhancedAIService.modifyTestOp, h]
  | searchTests rc r now q n =>
    simp [EnhancedAIService.step, EnhancedAIService.searchTestsOp, h]
  | saveTest rc r fs ms c tn od =>
    simp [EnhancedAIService.step, EnhancedAIService.saveTestOp, h]
  | getServiceStatus hr hm => simpa [EnhancedAIService.step] using h

/-! ## The claims -/

/-- C1: no silent recovery — once the gateway's mode is Simulated
(`useMock = true`), any sequence of gateway operations that contains no
explicit `enableReal` command leaves the mode Simulated, whatever each
call's real-backend outcome, random draws and environment are. -/
theorem noSilentRecovery (svc : EnhancedAIService) (ops : List GatewayOp)
    (hmock : svc.useMock = true)
    (hnoreal : ∀ op ∈ ops, op ≠ GatewayOp.enableReal) :
    (ops.foldl EnhancedAIService.step svc).useMock = true := by
  induction ops generalizing svc with
  | nil => simpa using hmock
  | cons op rest ih =>
    simp only [List.foldl_cons]
    exact ih (svc.step op)
      (step_preserves_mock svc op (hnoreal op (List.mem_cons_self op rest)) hmock)
      (fun o ho => hnoreal o (List.mem_cons_of_mem op ho))

theorem noSilentRecovery_witness :
    (([GatewayOp.checkHealth true 0,
       GatewayOp.generateTest (.error "ECONNREFUSED") 0 { requirements := "login" },
       GatewayOp.enableMock]).foldl EnhancedAIService.step
        { useMock := true, autoFallback := true,
          mockService := MockAIService.construct {} }).useMock = true :=
  noSilentRecovery _ _ rfl (by decide)

/-- The spec's category names for the simulator's classification. -/
inductive SpecCategory where
  | Authentication
  | Navigation
  | FormSubmission
  | Commerce
  | Generic
  deriving Repr, DecidableEq

/-- Modelled from the spec's words: lower-case the requirement text and
test, in fixed priority order, for substring membership. -/
def specClassify (requirements : String) : SpecCategory :=
  let t := jsToLower requirements
  if containsStr t "login" || containsStr t "auth" then .Authentication
  else if containsStr t "nav" || containsStr t "menu" then .Navigation
  else if containsStr t "form" || containsStr t "submit" then .FormSubmission
  else if containsStr t "shop" || containsStr t "cart" || containsStr t "store" then
    .Commerce
  else .Generic

/-- The category each source template key realizes. -/
def templateCategory : TemplateKey → SpecCategory
  | .login => .Authentication
  | .navigation => .Navigation
  | .form => .FormSubmission
  | .shopping => .Commerce
  | .dflt => .Generic

/-- C2: with error injection disabled, the simulator's generation always
succeeds with a non-empty artifact, the chosen template's category is the
pure function of the lower-cased requirement text the spec describes, and
a requirement containing both "login" and "cart" classifies as
Authentication. -/
theorem classificationPure (svc : MockAIService)
    (h : svc.enableRandomErrors = false) (rand : ℚ)
    (request : TestGenerationRequest) :
    (svc.generateTest rand request).success = true ∧
    (∃ code, (svc.generateTest rand request).code = some code ∧ code ≠ "") ∧
    templateCategory (chooseTemplate request.requirements)
      = specClassify request.requirements ∧
    (containsStr (jsToLower request.requirements) "login" = true →
      containsStr (jsToLower request.requirements) "cart" = true →
      templateCategory (chooseTemplate request.requirements)
        = SpecCategory.Authentication) := by
  refine ⟨?_, ?_, ?_, ?_⟩
  · simp [MockAIService.generateTest, shouldSimulateError_off svc h rand]
  · refine ⟨MockAIService.generatePlaywrightTest request.requirements request.context,
      ?_, ?_⟩
    · simp [MockAIService.generateTest, shouldSimulateError_off svc h rand]
    · exact testTemplates_ne_empty _ _ _
  · simp only [chooseTemplate, specClassify]
    split_ifs <;> rfl
  · intro hlogin _
    simp [chooseTemplate, hlogin, templateCategory]

theorem classificationPure_witness :
    ((MockAIService.construct {}).generateTest 0
      { requirements := "Add item to cart after login" }).success = true ∧
    templateCategory (chooseTemplate "Add item to cart after login")
      = SpecCategory.Authentication :=
  ⟨(classificationPure (MockAIService.construct {}) rfl 0
      { requirements := "Add item to cart after login" }).1,
   (classificationPure (MockAIService.construct {}) rfl 0
      { requirements := "Add item to cart after login" }).2.2.2
     (by decide) (by decide)⟩

theorem client_generateTest_fault (http : HttpOutcome TestGenerationResponse)
    (hf : http.isFault = true) :
    (AIServiceIntegration.generateTest http).success = false ∧
    (AIServiceIntegration.generateTest http).error.isSome = true := by
  cases http <;> simp_all [AIServiceIntegration.generateTest, HttpOutcome.isFault]

theorem client_analyzeTest_fault (http : HttpOutcome TestAnalysisResponse)
    (hf : http.isFault = true) :
    (AIServiceIntegration.analyzeTest http).success = false ∧
    (AIServiceIntegration.analyzeTest http).error.isSome = true := by
  cases http <;> simp_all [AIServiceIntegration.analyzeTest, HttpOutcome.isFault]

theorem client_modifyTest_fault (http : HttpOutcome TestGenerationResponse)
    (hf : http.isFault = true) :
    (AIServiceIntegration.modifyTest http).success = false ∧
    (AIServiceIntegration.modifyTest http).error.isSome = true := by
  cases http <;> simp_all [AIServiceIntegration.modifyTest, HttpOutcome.isFault]

theorem client_saveTest_fault (http : HttpOutcome SaveHttpData)
    (hf : http.isFault = true) :
    (AIServiceIntegration.saveTest http).success = false ∧
    (AIServiceIntegration.saveTest http).error.isSome = true := by
  cases http <;> simp_all [AIServiceIntegration.saveTest, HttpOutcome.isFault]

theorem client_searchTests_fault (http : HttpOutcome (Option (List SearchResult)))
    (hf : http.isFault = true) : AIServiceIntegration.searchTests http = [] := by
  cases http <;> simp_all [AIServiceIntegration.searchTests, HttpOutcome.isFault]

theorem client_checkHealth_fault (http : HttpOutcome String)
    (hf : http.isFault = true) : AIServiceIntegration.checkHealth http = false := by
  cases http <;> simp_all [AIServiceIntegration.checkHealth, HttpOutcome.isFault]

theorem mockGenerate_success_or_declared (m : MockAIService) (rand : ℚ)
    (request : TestGenerationRequest) :
    (m.generateTest rand request).success = true ∨
    (m.generateTest rand request).error
      = some "Mock AI service temporarily unavailable" := by
  cases h : m.shouldSimulateError rand <;> simp [MockAIService.generateTest, h]

theorem mockAnalyze_success_or_declared (m : MockAIService) (rand : ℚ)
    (request : TestAnalysisRequest) :
    (m.analyzeTest rand request).success = true ∨
    (m.analyzeTest rand request).error
      = some "Mock analysis service temporarily unavailable" := by
  cases h : m.shouldSimulateError rand <;> simp [MockAIService.analyzeTest, h]

theorem mockModify_success_or_declared (m : MockAIService) (rand : ℚ)
    (fp mr : String) :
    (m.modifyTest rand fp mr).success = true ∨
    (m.modifyTest rand fp mr).error
      = some "Mock modification service temporarily unavailable" := by
  cases h : m.shouldSimulateError rand <;> simp [MockAIService.modifyTest, h]

theorem mockSave_success_or_declared (m : MockAIService) (rand : ℚ) (fs : FsEnv)
    (ms : ℕ) (c tn od : String) :
    (m.saveTest rand fs ms c tn od).success = true ∨
    (m.saveTest rand fs ms c tn od).error
      = some "Mock save service temporarily unavailable" ∨
    ∃ msg, (m.saveTest rand fs ms c tn od).error
      = some ("Failed to save test: " ++ msg) := by
  cases h : m.shouldSimulateError rand
  · cases hw : fs.writeOk <;> simp [MockAIService.saveTest, h, hw]
  · simp [MockAIService.saveTest, h]

/-- C3: failover invariant — with auto-fallback enabled, when every HTTP
call of the real-backend client raises a transport fault, each gateway
operation returns (never throws) exactly the simulator's result, which is
a success=true result or a failure the simulator itself declared. -/
theorem failoverInvariant (svc : EnhancedAIService)
    (haf : svc.autoFallback = true) :
    (∀ (http : HttpOutcome String) (rand : ℚ), http.isFault = true →
      (svc.checkHealthOp (AIServiceIntegration.checkHealth http) rand).1
        = svc.mockService.checkHealth rand) ∧
    (∀ (http : HttpOutcome TestGenerationResponse) (rand : ℚ)
        (request : TestGenerationRequest), http.isFault = true →
      ∃ svc', svc.generateTestOp (.ok (AIServiceIntegration.generateTest http))
          rand request
        = .ok (svc.mockService.generateTest rand request, svc') ∧
        ((svc.mockService.generateTest rand request).success = true ∨
          (svc.mockService.generateTest rand request).error
            = some "Mock AI service temporarily unavailable")) ∧
    (∀ (http : HttpOutcome TestAnalysisResponse) (rand : ℚ)
        (request : TestAnalysisRequest), http.isFault = true →
      ∃ svc', svc.analyzeTestOp (.ok (AIServiceIntegration.analyzeTest http))
          rand request
        = .ok (svc.mockService.analyzeTest rand
            (gatewayMockAnalysisRequest request), svc') ∧
        ((svc.mockService.analyzeTest rand
            (gatewayMockAnalysisRequest request)).success = true ∨
          (svc.mockService.analyzeTest rand
            (gatewayMockAnalysisRequest request)).error
            = some "Mock analysis service temporarily unavailable")) ∧
    (∀ (http : HttpOutcome TestGenerationResponse) (rand : ℚ) (fp mr : String),
      http.isFault = true →
      ∃ svc', svc.modifyTestOp (.ok (AIServiceIntegration.modifyTest http))
          rand fp mr
        = .ok (svc.mockService.modifyTest rand fp mr, svc') ∧
        ((svc.mockService.modifyTest rand fp mr).success = true ∨
          (svc.mockService.modifyTest rand fp mr).error
            = some "Mock modification service temporarily unavailable")) ∧
    (∀ (http : HttpOutcome (Option (List SearchResult))) (rand : ℚ)
        (now query : String) (n : ℕ), http.isFault = true →
      ∃ svc', svc.searchTestsOp (.ok (AIServiceIntegration.searchTests http))
          rand now query n
        = .ok (svc.mockService.searchTests rand now query n, svc')) ∧
    (∀ (http : HttpOutcome SaveHttpData) (rand : ℚ) (fs : FsEnv) (ms : ℕ)
        (c tn od : String), http.isFault = true →
      ∃ svc', svc.saveTestOp (.ok (AIServiceIntegration.saveTest http))
          rand fs ms c tn od
        = .ok (svc.mockService.saveTest rand fs ms c tn od, svc') ∧
        ((svc.mockService.saveTest rand fs ms c tn od).success = true ∨
          (svc.mockService.saveTest rand fs ms c tn od).error
            = some "Mock save service temporarily unavailable" ∨
          ∃ msg, (svc.mockService.saveTest rand fs ms c tn od).error
            = some ("Failed to save test: " ++ msg))) := by
  refine ⟨?_, ?_, ?_, ?_, ?_, ?_⟩
  · intro http rand hf
    have hc := client_checkHealth_fault http hf
    by_cases hm : svc.useMock <;>
      simp [EnhancedAIService.checkHealthOp, hm, hc, haf]
  · intro http rand request hf
    have hc := client_generateTest_fault http hf
    by_cases hm : svc.useMock
    · exact ⟨svc, by simp [EnhancedAIService.generateTestOp, hm],
        mockGenerate_success_or_declared _ _ _⟩
    · exact ⟨{ svc with useMock := true },
        by simp [EnhancedAIService.generateTestOp, hm, haf, hc.1],
        mockGenerate_success_or_declared _ _ _⟩
  · intro http rand request hf
    have hc := client_analyzeTest_fault http hf
    by_cases hm : svc.useMock
    · exact ⟨svc, by simp [EnhancedAIService.analyzeTestOp, hm],
        mockAnalyze_success_or_declared _ _ _⟩
    · exact ⟨{ svc with useMock := true },
        by simp [EnhancedAIService.analyzeTestOp, hm, haf, hc.1],
        mockAnalyze_success_or_declared _ _ _⟩
  · intro http rand fp mr hf
    have hc := client_modifyTest_fault http hf
    by_cases hm : svc.useMock
    · exact ⟨svc, by simp [EnhancedAIService.modifyTestOp, hm],
        mockModify_success_or_declared _ _ _ _⟩
    · exact ⟨{ svc with useMock := true },
        by simp [EnhancedAIService.modifyTestOp, hm, haf, hc.1],
        mockModify_success_or_declared _ _ _ _⟩
  · intro http rand now query n hf
    have hc := client_searchTests_fault http hf
    by_cases hm : svc.useMock
    · exact ⟨svc, by simp [EnhancedAIService.searchTestsOp, hm]⟩
    · exact ⟨{ svc with useMock := true },
        by simp [EnhancedAIService.searchTestsOp, hm, haf, hc]⟩
  · intro http rand fs ms c tn od hf
    have hc := client_saveTest_fault http hf
    by_cases hm : svc.useMock
    · exact ⟨svc, by simp [EnhancedAIService.saveTestOp, hm],
        mockSave_success_or_declared _ _ _ _ _ _ _⟩
    · exact ⟨{ svc with useMock := true },
        by simp [EnhancedAIService.saveTestOp, hm, haf, hc.1],
        mockSave_success_or_declared _ _ _ _ _ _ _⟩

theorem failoverInvariant_witness :
    ∃ svc', (EnhancedAIService.construct {}).generateTestOp
        (.ok (AIServiceIntegration.generateTest
          (.axiosErr none "connect ECONNREFUSED 127.0.0.1:8000")))
        0 { requirements := "test login functionality" }
      = .ok ((EnhancedAIService.construct {}).mockService.generateTest 0
          { requirements := "test login functionality" }, svc') ∧
      (((EnhancedAIService.construct {}).mockService.generateTest 0
          { requirements := "test login functionality" }).success = true ∨
        ((EnhancedAIService.construct {}).mockService.generateTest 0
          { requirements := "test login functionality" }).error
          = some "Mock AI service temporarily unavailable") :=
  (failoverInvariant (EnhancedAIService.construct {}) rfl).2.1
    (.axiosErr none "connect ECONNREFUSED 127.0.0.1:8000") 0
    { requirements := "test login functionality" } rfl

/-- C4: with auto-fallback disabled and the gateway in Real mode, a real
backend result with success=false is returned unchanged by generateTest,
analyzeTest, modifyTest and saveTest, and the state (hence the Real mode)
is unchanged. -/
theorem fallbackDisabledPropagates (svc : EnhancedAIService)
    (hmode : svc.useMock = false) (haf : svc.autoFallback = false) :
    (∀ (result : TestGenerationResponse) (rand : ℚ)
        (request : TestGenerationRequest), result.success = false →
      svc.generateTestOp (.ok result) rand request = .ok (result, svc)) ∧
    (∀ (result : TestAnalysisResponse) (rand : ℚ)
        (request : TestAnalysisRequest), result.success = false →
      svc.analyzeTestOp (.ok result) rand request = .ok (result, svc)) ∧
    (∀ (result : TestGenerationResponse) (rand : ℚ) (fp mr : String),
      result.success = false →
      svc.modifyTestOp (.ok result) rand fp mr = .ok (result, svc)) ∧
    (∀ (result : SaveResponse) (rand : ℚ) (fs : FsEnv) (ms : ℕ)
        (c tn od : String), result.success = false →
      svc.saveTestOp (.ok result) rand fs ms c tn od = .ok (result, svc)) ∧
    svc.useMock = false := by
  refine ⟨?_, ?_, ?_, ?_, hmode⟩
  · intro result rand request hr
    simp [EnhancedAIService.generateTestOp, hmode, haf, hr]
  · intro result rand request hr
    simp [EnhancedAIService.analyzeTestOp, hmode, haf, hr]
  · intro result rand fp mr hr
    simp [EnhancedAIService.modifyTestOp, hmode, haf, hr]
  · intro result rand fs ms c tn od hr
    simp [EnhancedAIService.saveTestOp, hmode, haf, hr]

theorem fallbackDisabledPropagates_witness :
    (EnhancedAIService.construct { autoFallback := some false }).generateTestOp
      (.ok { success := false, error := some "model overloaded" }) 0
      { requirements := "login" }
      = .ok ({ success := false, error := some "model overloaded" },
        EnhancedAIService.construct { autoFallback := some false }) :=
  (fallbackDisabledPropagates
    (EnhancedAIService.construct { autoFallback := some false }) rfl rfl).1
    { success := false, error := some "model overloaded" } 0
    { requirements := "login" } rfl

/-- C5: empty-search fallback — in Real mode with auto-fallback enabled, a
real search that returns the empty result set flips the mode to Simulated
and returns the simulator's results for the same query and the same
requested count. -/
theorem emptySearchFallback (svc : EnhancedAIService)
    (hmode : svc.useMock = false) (haf : svc.autoFallback = true) (rand : ℚ)
    (now query : String) (numResults : ℕ) :
    svc.searchTestsOp (.ok []) rand now query numResults
      = .ok (svc.mockService.searchTests rand now query numResults,
          { svc with useMock := true }) ∧
    ({ svc with useMock := true } : EnhancedAIService).useMock = true := by
  constructor
  · simp [EnhancedAIService.searchTestsOp, hmode, haf]
  · rfl

theorem emptySearchFallback_witness :
    (EnhancedAIService.construct {}).searchTestsOp (.ok []) 0
      "2025-01-01T00:00:00.000Z" "checkout flow" 3
      = .ok ((EnhancedAIService.construct {}).mockService.searchTests 0
          "2025-01-01T00:00:00.000Z" "checkout flow" 3,
        { EnhancedAIService.construct {} with useMock := true }) :=
  (emptySearchFallback (EnhancedAIService.construct {}) rfl rfl 0
    "2025-01-01T00:00:00.000Z" "checkout flow" 3).1

/-- C6: scenario C — with error injection disabled, analyzing test code
that contains a navigation call (`page.goto`) and an interaction call
(`await page.click`) but no assertion (no occurrence of `expect`) yields a
successful analysis whose improvements include the note about adding
assertions after interaction actions, and whose quality is at most Good,
never Excellent. -/
theorem analysisScenarioC (svc : MockAIService)
    (h : svc.enableRandomErrors = false) (rand : ℚ) (testCode : String)
    (hnav : containsStr testCode "page.goto" = true)
    (hclick : containsStr testCode "await page.click" = true)
    (hnoexpect : containsStr testCode "expect" = false) :
    (svc.analyzeTest rand { testCode := testCode }).success = true ∧
    ∃ a, (svc.analyzeTest rand { testCode := testCode }).analysis = some a ∧
      "Add assertions after click actions" ∈ a.improvements ∧
      a.quality ≠ "Excellent" ∧
      (a.quality = "Good" ∨ a.quality = "Needs Improvement") := by
  have hse := shouldSimulateError_off svc h rand
  have himport : containsStr testCode "import \x7b test, expect \x7d" = false := by
    cases hcase : containsStr testCode "import \x7b test, expect \x7d"
    · rfl
    · exact absurd (containsStr_of_sub testCode _ "expect" (by decide) hcase)
        (by simp [hnoexpect])
  have hparen : containsStr testCode "expect(" = false := by
    cases hcase : containsStr testCode "expect("
    · rfl
    · exact absurd (containsStr_of_sub testCode _ "expect" (by decide) hcase)
        (by simp [hnoexpect])
  refine ⟨by simp [MockAIService.analyzeTest, hse],
    MockAIService.analyzeTestCode testCode,
    by simp [MockAIService.analyzeTest, hse], ?_, ?_, ?_⟩ <;>
    cases hfill : containsStr testCode "page.fill" <;>
      norm_num [MockAIService.analyzeTestCode, himport, hparen, hnav, hclick,
        hnoexpect, hfill] <;>
      decide

theorem analysisScenarioC_witness :
    ∃ a, ((MockAIService.construct {}).analyzeTest 0
        { testCode :=
          "await page.goto('https://example.com');\nawait page.click('nav a');" }).analysis
      = some a ∧
      "Add assertions after click actions" ∈ a.improvements ∧
      a.quality ≠ "Excellent" ∧
      (a.quality = "Good" ∨ a.quality = "Needs Improvement") :=
  (analysisScenarioC (MockAIService.construct {}) rfl 0
    "await page.goto('https://example.com');\nawait page.click('nav a');"
    (by decide) (by decide) (by decide)).2

/-- C7: search simulation — with error injection disabled, `searchTests`
returns exactly `min n 5` entries, their relevance scores are
`0.9 - i * 0.1` for `i = 0, 1, …` (hence strictly decreasing), every
entry's content contains the query text, and a request for 3 results
yields exactly the scores 0.9, 0.8, 0.7. -/
theorem searchSimulation (svc : MockAIService)
    (h : svc.enableRandomErrors = false) (rand : ℚ) (now query : String)
    (n : ℕ) :
    (svc.searchTests rand now query n).length = min n 5 ∧
    ((svc.searchTests rand now query n).map (fun r => r.score))
      = (List.range (min n 5)).map (fun i : ℕ => (0.9 : ℚ) - i * 0.1) ∧
    ((svc.searchTests rand now query n).map (fun r => r.score)).Pairwise (· > ·) ∧
    (∀ r ∈ svc.searchTests rand now query n, containsStr r.content query = true) ∧
    ((svc.searchTests rand now query 3).map (fun r => r.score)) = [0.9, 0.8, 0.7] := by
  have hse := shouldSimulateError_off svc h rand
  have hlist : svc.searchTests rand now query n
      = (List.range (min n 5)).map (mockSearchEntry now query) := by
    simp [MockAIService.searchTests, hse]
  have hmap : ((svc.searchTests rand now query n).map (fun r => r.score))
      = (List.range (min n 5)).map (fun i : ℕ => (0.9 : ℚ) - i * 0.1) := by
    rw [hlist, List.map_map]
    rfl
  refine ⟨?_, hmap, ?_, ?_, ?_⟩
  · simp [MockAIService.searchTests, hse]
  · rw [hmap, List.pairwise_map]
    refine (List.pairwise_lt_range _).imp ?_
    intro a b hab
    have hq : (a : ℚ) < b := by exact_mod_cast hab
    have := mul_lt_mul_of_pos_right hq (by norm_num : (0 : ℚ) < 0.1)
    simp only [gt_iff_lt]
    linarith
  · intro r hr
    simp only [MockAIService.searchTests, hse, Bool.false_eq_true, if_false,
      List.mem_map] at hr
    obtain ⟨i, _, rfl⟩ := hr
    simpa only [mockSearchEntry] using containsStr_middle
      "// Mock test content for: " query
      "\n// This is a generated search result for development purposes"
  · simp [MockAIService.searchTests, hse, mockSearchEntry, List.range_succ]
    norm_num

theorem searchSimulation_witness :
    ((MockAIService.construct {}).searchTests 0 "2025-01-01T00:00:00.000Z"
      "login tests" 3).map (fun r => r.score) = [0.9, 0.8, 0.7] :=
  (searchSimulation (MockAIService.construct {}) rfl 0
    "2025-01-01T00:00:00.000Z" "login tests" 3).2.2.2.2

/-- C8: generation idempotence — with error injection disabled, two
invocations of the simulator's `generateTest` on identical
(requirements, context) yield identical artifact code (indeed identical
responses), whatever the two random draws were. -/
theorem generationIdempotent (svc : MockAIService)
    (h : svc.enableRandomErrors = false) (r1 r2 : ℚ)
    (request : TestGenerationRequest) :
    (svc.generateTest r1 request).code = (svc.generateTest r2 request).code ∧
    svc.generateTest r1 request = svc.generateTest r2 request := by
  have h1 := shouldSimulateError_off svc h r1
  have h2 := shouldSimulateError_off svc h r2
  constructor <;> simp [MockAIService.generateTest, h1, h2]

theorem generationIdempotent_witness :
    (MockAIService.construct { responseDelay := some 300 }).generateTest (1/3)
      { requirements := "submit the contact form", context := some "contact page" }
      = (MockAIService.construct { responseDelay := some 300 }).generateTest (2/3)
      { requirements := "submit the contact form", context := some "contact page" } :=
  (generationIdempotent (MockAIService.construct { responseDelay := some 300 })
    rfl (1/3) (2/3)
    { requirements := "submit the contact form", context := some "contact page" }).2

theorem generateTestOp_ok_isOk (svc : EnhancedAIService)
    (r : TestGenerationResponse) (rand : ℚ) (request : TestGenerationRequest) :
    (svc.generateTestOp (.ok r) rand request).isOk = true := by
  unfold EnhancedAIService.generateTestOp
  split
  · rfl
  · dsimp only
    split <;> rfl

theorem analyzeTestOp_ok_isOk (svc : EnhancedAIService)
    (r : TestAnalysisResponse) (rand : ℚ) (request : TestAnalysisRequest) :
    (svc.analyzeTestOp (.ok r) rand request).isOk = true := by
  unfold EnhancedAIService.analyzeTestOp
  split
  · rfl
  · dsimp only
    split <;> rfl

theorem modifyTestOp_ok_isOk (svc : EnhancedAIService)
    (r : TestGenerationResponse) (rand : ℚ) (fp mr : String) :
    (svc.modifyTestOp (.ok r) rand fp mr).isOk = true := by
  unfold EnhancedAIService.modifyTestOp
  split
  · rfl
  · dsimp only
    split <;> rfl

theorem searchTestsOp_ok_isOk (svc : EnhancedAIService)
    (l : List SearchResult) (rand : ℚ) (now query : String) (n : ℕ) :
    (svc.searchTestsOp (.ok l) rand now query n).isOk = true := by
  unfold EnhancedAIService.searchTestsOp
  split
  · rfl
  · dsimp only
    split <;> rfl

theorem saveTestOp_ok_isOk (svc : EnhancedAIService) (r : SaveResponse)
    (rand : ℚ) (fs : FsEnv) (ms : ℕ) (c tn od : String) :
    (svc.saveTestOp (.ok r) rand fs ms c tn od).isOk = true := by
  unfold EnhancedAIService.saveTestOp
  split
  · rfl
  · dsimp only
    split <;> rfl

/-- C9: the real-backend client is exception-free at its public interface —
on every transport fault, generateTest/analyzeTest/modifyTest/saveTest
return success=false with an error string, searchTests returns the empty
list and checkHealth returns false; consequently, composed with the
client's (total) output, every gateway operation returns a value and never
reaches its catch-based rethrow. -/
theorem realClientNeverThrows :
    (∀ http : HttpOutcome TestGenerationResponse, http.isFault = true →
      (AIServiceIntegration.generateTest http).success = false ∧
      (AIServiceIntegration.generateTest http).error.isSome = true) ∧
    (∀ http : HttpOutcome TestAnalysisResponse, http.isFault = true →
      (AIServiceIntegration.analyzeTest http).success = false ∧
      (AIServiceIntegration.analyzeTest http).error.isSome = true) ∧
    (∀ http : HttpOutcome TestGenerationResponse, http.isFault = true →
      (AIServiceIntegration.modifyTest http).success = false ∧
      (AIServiceIntegration.modifyTest http).error.isSome = true) ∧
    (∀ http : HttpOutcome SaveHttpData, http.isFault = true →
      (AIServiceIntegration.saveTest http).success = false ∧
      (AIServiceIntegration.saveTest http).error.isSome = true) ∧
    (∀ http : HttpOutcome (Option (List SearchResult)), http.isFault = true →
      AIServiceIntegration.searchTests http = []) ∧
    (∀ http : HttpOutcome String, http.isFault = true →
      AIServiceIntegration.checkHealth http = false) ∧
    (∀ (svc : EnhancedAIService) (http : HttpOutcome TestGenerationResponse)
        (rand : ℚ) (request : TestGenerationRequest),
      (svc.generateTestOp (.ok (AIServiceIntegration.generateTest http))
        rand request).isOk = true) ∧
    (∀ (svc : EnhancedAIService) (http : HttpOutcome TestAnalysisResponse)
        (rand : ℚ) (request : TestAnalysisRequest),
      (svc.analyzeTestOp (.ok (AIServiceIntegration.analyzeTest http))
        rand request).isOk = true) ∧
    (∀ (svc : EnhancedAIService) (http : HttpOutcome TestGenerationResponse)
        (rand : ℚ) (fp mr : String),
      (svc.modifyTestOp (.ok (AIServiceIntegration.modifyTest http))
        rand fp mr).isOk = true) ∧
    (∀ (svc : EnhancedAIService) (http : HttpOutcome (Option (List SearchResult)))
        (rand : ℚ) (now query : String) (n : ℕ),
      (svc.searchTestsOp (.ok (AIServiceIntegration.searchTests http))
        rand now query n).isOk = true) ∧
    (∀ (svc : EnhancedAIService) (http : HttpOutcome SaveHttpData) (rand : ℚ)
        (fs : FsEnv) (ms : ℕ) (c tn od : String),
      (svc.saveTestOp (.ok (AIServiceIntegration.saveTest http))
        rand fs ms c tn od).isOk = true) :=
  ⟨client_generateTest_fault, client_analyzeTest_fault, client_modifyTest_fault,
    client_saveTest_fault, client_searchTests_fault, client_checkHealth_fault,
    fun svc http rand request =>
      generateTestOp_ok_isOk svc (AIServiceIntegration.generateTest http) rand request,
    fun svc http rand request =>
      analyzeTestOp_ok_isOk svc (AIServiceIntegration.analyzeTest http) rand request,
    fun svc http rand fp mr =>
      modifyTestOp_ok_isOk svc (AIServiceIntegration.modifyTest http) rand fp mr,
    fun svc http rand now query n =>
      searchTestsOp_ok_isOk svc (AIServiceIntegration.searchTests http) rand now query n,
    fun svc http rand fs ms c tn od =>
      saveTestOp_ok_isOk svc (AIServiceIntegration.saveTest http) rand fs ms c tn od⟩

theorem realClientNeverThrows_witness :
    (AIServiceIntegration.generateTest
        (.axiosErr none ("timeout of 30000ms exceeded" : String))).success = false ∧
    AIServiceIntegration.searchTests (.otherErr "socket hang up") = [] ∧
    AIServiceIntegration.checkHealth (.axiosErr none "connect ECONNREFUSED") = false :=
  ⟨(realClientNeverThrows.1 (.axiosErr none "timeout of 30000ms exceeded") rfl).1,
    realClientNeverThrows.2.2.2.2.1 (.otherErr "socket hang up") rfl,
    realClientNeverThrows.2.2.2.2.2.1 (.axiosErr none "connect ECONNREFUSED") rfl⟩

/-- C10: the simulator's constructor applies its defaults with logical-or,
so the falsy explicit values are replaced: a configured responseDelay of 0
yields 500 and a configured errorRate of 0 yields 0.1; consequently no
configuration can produce a zero delay or a zero error rate. -/
theorem constructFalsyDefaults :
    (MockAIService.construct { responseDelay := some 0 }).responseDelay = 500 ∧
    (MockAIService.construct { errorRate := some 0 }).errorRate = 0.1 ∧
    ∀ config : MockAIServiceConfig,
      (MockAIService.construct config).responseDelay ≠ 0 ∧
      (MockAIService.construct config).errorRate ≠ 0 := by
  refine ⟨by norm_num [MockAIService.construct, jsOrNum],
    by norm_num [MockAIService.construct, jsOrNum], ?_⟩
  intro config
  constructor
  · cases hd : config.responseDelay with
    | none => norm_num [MockAIService.construct, jsOrNum, hd]
    | some x =>
      by_cases hx : x = 0
      · norm_num [MockAIService.construct, jsOrNum, hd, hx]
      · simp [MockAIService.construct, jsOrNum, hd, hx]
  · cases hd : config.errorRate with
    | none => norm_num [MockAIService.construct, jsOrNum, hd]
    | some x =>
      by_cases hx : x = 0
      · norm_num [MockAIService.construct, jsOrNum, hd, hx]
      · simp [MockAIService.construct, jsOrNum, hd, hx]

end AIAutomation
